import Mathlib

/-!
Shallow embedding of
`src/libs/miroflow-tools/src/miroflow_tools/mcp_servers/rag_knowledge_base_mcp_server.py`.

The module exposes three async tool operations — `search_knowledge_base`,
`get_document`, `list_collections` — each of which issues HTTP calls through
`httpx` and returns a JSON-serialized result envelope.  We embed:

* JSON values as an inductive `Json` (the dict passed to `json.dumps`;
  serialization itself is key-order preserving and lossless, so claims about
  the returned JSON envelope are stated on this value);
* the behavior of the remote endpoint on each attempt as `AttemptResult`
  (an HTTP response with a status code and an optional parsed body — `none`
  models a body on which `response.json()` raises — or a timeout, or any
  other transport-level exception raised by the request call);
* Python exceptions that can cross the inner code as `PyError`, with
  `PyError.msg` modelling `str(e)`.  Exception messages are abbreviations
  that keep the parts the program and its spec depend on: an
  `httpx.HTTPStatusError` message contains the decimal status code (as the
  real httpx message does), a `NameError` message names the unbound
  identifier.
* the module-level binding environment: the statement `import asyncio`
  appears only inside the `if __name__ == "__main__":` block, so the global
  name `asyncio` used by the retry branches (`await asyncio.sleep(delay)`)
  is bound exactly when the file was executed as a script (the import runs
  before `mcp.run`) and unbound when the module was merely imported.  The
  flag `asyncioDefined` carries this; evaluating `asyncio.sleep` with the
  name unbound raises `NameError`, which the inner `except httpx...` clauses
  do not catch, so it reaches the outermost `except Exception`.
-/

/-- Python `str.strip()`: drop leading and trailing whitespace. -/
def pyStrip (s : String) : String :=
  ⟨((s.data.dropWhile Char.isWhitespace).reverse.dropWhile Char.isWhitespace).reverse⟩

/-- JSON values (Python objects passed to / produced by `json`). -/
inductive Json where
  | null
  | bool (b : Bool)
  | num (n : Int)
  | str (s : String)
  | arr (xs : List Json)
  | obj (fields : List (String × Json))

/-- Field lookup on a JSON object; `none` on a non-object or a missing key. -/
def Json.lookup : Json → String → Option Json
  | .obj fields, key => fields.lookup key
  | _, _ => none

/-- Python exceptions that the operations can raise internally. -/
inductive PyError where
  | timeoutExc
  | httpStatusError (status : Nat)
  | nameError (nm : String)
  | jsonDecodeError
  | attributeError (nm : String)
  | typeError (nm : String)
  | other (msg : String)
deriving DecidableEq

/-- Model of `str(e)`: an abbreviation of the real message keeping the parts
the claims depend on (the decimal status code of an `HTTPStatusError`, the
unbound name of a `NameError`). -/
def PyError.msg : PyError → String
  | .timeoutExc => "Request timed out"
  | .httpStatusError s => (if 500 ≤ s then "Server error " else "Client error ") ++ toString s
  | .nameError nm => "NameError: name " ++ nm ++ " is not defined"
  | .jsonDecodeError => "Expecting value: line 1 column 1 (char 0)"
  | .attributeError nm => "AttributeError: object has no attribute " ++ nm
  | .typeError nm => "TypeError: object has no " ++ nm
  | .other msg => msg

/-- Outcome of one `client.post` / `client.get` call: a response carrying a
status code and (when `response.json()` would succeed) its parsed body, a
`httpx.TimeoutException`, or any other transport-level exception. -/
inductive AttemptResult where
  | response (status : Nat) (body : Option Json)
  | timeout
  | transportError (msg : String)

/-- The httpx success test `response.is_success`: `raise_for_status` raises
for every status outside `[200, 300)`. -/
def is2xx (s : Nat) : Bool := decide (200 ≤ s ∧ s < 300)

/-- The retryable classification in `search_knowledge_base`:
`status_code >= 500 or status_code in [408, 429]`. -/
def retryableStatus (s : Nat) : Bool := decide (500 ≤ s ∨ s = 408 ∨ s = 429)

/-- The fixed backoff schedule `retry_delays = [1, 2, 4]` (seconds). -/
def retry_delays : List Nat := [1, 2, 4]

/-- Python `result_data.get(key, [])`: the default-`[]` dict lookup; on a non-dict
value (`result_data` parsed from a JSON array, string, number, …) the
attribute access `.get` raises `AttributeError`. -/
def pyGet (j : Json) (key : String) : Except PyError Json :=
  match j with
  | .obj fields =>
    match fields.lookup key with
    | some v => .ok v
    | none => .ok (.arr [])
  | _ => .error (.attributeError "get")

/-- Python `len`: defined on sequences, strings and dicts; raises
`TypeError` on numbers, booleans and `None`. -/
def pyLen : Json → Except PyError Int
  | .arr xs => .ok xs.length
  | .str s => .ok s.length
  | .obj fields => .ok fields.length
  | _ => .error (.typeError "len")

/-- The `for attempt, delay in enumerate(retry_delays, 1):` loop of
`search_knowledge_base`, evaluated against an endpoint behavior
`env : attempt number → AttemptResult`.  Returns the number of attempts
made, the backoff delays actually slept (in order), and either the
response `(status, parsed body)` that passed `raise_for_status` (the
`break`), or the exception that escaped the loop.  `total` is
`len(retry_delays)`.  When `asyncioDefined = false` the retry branches
raise `NameError` at `asyncio.sleep` instead of sleeping. -/
def runAttempts (env : Nat → AttemptResult) (asyncioDefined : Bool) (total : Nat) :
    List (Nat × Nat) → Nat × List Nat × Except PyError (Nat × Option Json)
  | [] => (0, [], .error (.nameError "response"))
  | (attempt, delay) :: rest =>
    match env attempt with
    | .response status body =>
      if is2xx status then
        (1, [], .ok (status, body))
      else if retryableStatus status then
        if attempt < total then
          if asyncioDefined then
            let r := runAttempts env asyncioDefined total rest
            (r.1 + 1, delay :: r.2.1, r.2.2)
          else
            (1, [], .error (.nameError "asyncio"))
        else
          (1, [], .error (.httpStatusError status))
      else
        (1, [], .error (.httpStatusError status))
    | .timeout =>
      if attempt < total then
        if asyncioDefined then
          let r := runAttempts env asyncioDefined total rest
          (r.1 + 1, delay :: r.2.1, r.2.2)
        else
          (1, [], .error (.nameError "asyncio"))
      else
        (1, [], .error .timeoutExc)
    | .transportError msg => (1, [], .error (.other msg))

/-- The whole retry loop on `retry_delays` with 1-based `enumerate`. -/
def searchRun (env : Nat → AttemptResult) (asyncioDefined : Bool) :
    Nat × List Nat × Except PyError (Nat × Option Json) :=
  runAttempts env asyncioDefined retry_delays.length (List.enumFrom 1 retry_delays)

/-- The post-loop body of the outer `try`: `response.json()` (raises when
the body is not JSON), `result_data.get("documents", [])`, and the
`len(documents)` evaluated by the success log line and the `count` field. -/
def searchParse (res : Except PyError (Nat × Option Json)) : Except PyError (Json × Int) :=
  match res with
  | .error e => .error e
  | .ok (_, none) => .error .jsonDecodeError
  | .ok (_, some result_data) =>
    match pyGet result_data "documents" with
    | .error e => .error e
    | .ok documents =>
      match pyLen documents with
      | .error e => .error e
      | .ok n => .ok (documents, n)

/-- The outermost `try`/`except Exception` boundary of
`search_knowledge_base`: every exception becomes the failure envelope. -/
def searchEnvelope (query collection_name : String)
    (res : Except PyError (Nat × Option Json)) : Json :=
  match searchParse res with
  | .ok (documents, n) =>
    .obj [("success", .bool true), ("query", .str query),
      ("collection", .str collection_name), ("results", documents),
      ("count", .num n)]
  | .error e =>
    .obj [("success", .bool false), ("error", .str e.msg),
      ("query", .str query), ("collection", .str collection_name)]

/-- The outbound POST body `{query, collection_name, top_k, score_threshold}`
(after the clamping that precedes the loop). -/
structure SearchBody where
  query : String
  collection_name : String
  top_k : Int
  score_threshold : Rat
deriving DecidableEq

/-- Observable outcome of one `search_knowledge_base` invocation: the JSON
envelope it returns, the number of network attempts made, the backoff
delays slept, and the request bodies sent (one per attempt, all equal since
clamping happens before the loop). -/
structure SearchResult where
  envelope : Json
  attempts : Nat
  sleeps : List Nat
  requests : List SearchBody

/-- Embedding of `search_knowledge_base(query, collection_name, top_k, score_threshold)`,
evaluated against an endpoint behavior `env` and the module binding
environment `asyncioDefined` (see the header comment). -/
def search_knowledge_base (query : String) (collection_name : String)
    (top_k : Int) (score_threshold : Rat)
    (env : Nat → AttemptResult) (asyncioDefined : Bool) : SearchResult :=
  if pyStrip query = "" then
    { envelope := .obj [("success", .bool false),
        ("error", .str "Query cannot be empty"), ("query", .str query)],
      attempts := 0, sleeps := [], requests := [] }
  else
    let tk := min (max 1 top_k) 20
    let st := min (max 0 score_threshold) 1
    let r := searchRun env asyncioDefined
    { envelope := searchEnvelope query collection_name r.2.2,
      attempts := r.1,
      sleeps := r.2.1,
      requests := List.replicate r.1 ⟨query, collection_name, tk, st⟩ }

/-- The single GET of `get_document`, up to `response.json()`: the parsed
document on a 2xx response, the escaping exception otherwise. -/
def getDocFetch (env : AttemptResult) : Except PyError Json :=
  match env with
  | .response status body =>
    if is2xx status then
      match body with
      | some document => .ok document
      | none => .error .jsonDecodeError
    else
      .error (.httpStatusError status)
  | .timeout => .error .timeoutExc
  | .transportError msg => .error (.other msg)

/-- Observable outcome of one `get_document` invocation. -/
structure GetDocResult where
  envelope : Json
  networkCalls : Nat

/-- Embedding of `get_document(document_id, collection_name)` evaluated against the
outcome `env` of its single GET.  Note the failure envelope carries
`document_id` but no `collection_name` field, exactly as the code builds
it. -/
def get_document (document_id : String) (collection_name : String)
    (env : AttemptResult) : GetDocResult :=
  if pyStrip document_id = "" then
    { envelope := .obj [("success", .bool false),
        ("error", .str "Document ID cannot be empty")],
      networkCalls := 0 }
  else
    match getDocFetch env with
    | .ok document =>
      { envelope := .obj [("success", .bool true), ("document", document)],
        networkCalls := 1 }
    | .error e =>
      { envelope := .obj [("success", .bool false), ("error", .str e.msg),
          ("document_id", .str document_id)],
        networkCalls := 1 }

/-- The single GET of `list_collections`, through `response.json()`,
`collections_data.get("collections", [])` and the `len(collections)`
evaluated by the success log line. -/
def listFetch (env : AttemptResult) : Except PyError Json :=
  match env with
  | .response status body =>
    if is2xx status then
      match body with
      | some collections_data =>
        match pyGet collections_data "collections" with
        | .error e => .error e
        | .ok collections =>
          match pyLen collections with
          | .error e => .error e
          | .ok _ => .ok collections
      | none => .error .jsonDecodeError
    else
      .error (.httpStatusError status)
  | .timeout => .error .timeoutExc
  | .transportError msg => .error (.other msg)

/-- Embedding of `list_collections()` evaluated against the outcome of its single GET. -/
def list_collections (env : AttemptResult) : Json :=
  match listFetch env with
  | .ok collections =>
    .obj [("success", .bool true), ("collections", collections)]
  | .error e =>
    .obj [("success", .bool false), ("error", .str e.msg)]

/-! ## Envelope shape -/

/-- The `success` field of an envelope, when present and boolean. -/
def successField (j : Json) : Option Bool :=
  match j.lookup "success" with
  | some (.bool b) => some b
  | _ => none

/-- The `error` field of an envelope, when present and textual. -/
def errorField (j : Json) : Option String :=
  match j.lookup "error" with
  | some (.str m) => some m
  | _ => none

/-- The uniform envelope contract: a boolean `success` field is always
present, and a textual `error` field whenever `success` is `false`. -/
def envelopeOk (j : Json) : Prop :=
  (successField j).isSome ∧ (successField j = some false → (errorField j).isSome)

/-- Endpoint for C2: HTTP 503 on the first two attempts, then HTTP 200 with
body `{"documents": [d1, d2]}` on the third. -/
def envTwo503Then200 (d1 d2 : Json) : Nat → AttemptResult := fun attempt =>
  if attempt ≤ 2 then .response 503 none
  else .response 200 (some (.obj [("documents", .arr [d1, d2])]))

/-- Endpoint for C3: HTTP 503 on every attempt. -/
def envAlways503 : Nat → AttemptResult := fun _ => .response 503 none

/-- A first attempt that fails with a retryable condition: a timeout, or an
HTTP status that is ≥ 500 or in {408, 429}. -/
def retryableFirstAttempt (env : Nat → AttemptResult) : Prop :=
  env 1 = .timeout ∨
    ∃ s b, env 1 = .response s b ∧ retryableStatus s = true

/-- A failing single GET in the sense of C9: a non-2xx status or a
transport-level failure. -/
def getFails (env : AttemptResult) : Prop :=
  env = .timeout ∨ (∃ m, env = .transportError m) ∨
    ∃ s b, env = .response s b ∧ is2xx s = false

lemma envelopeOk_searchEnvelope (q c : String)
    (res : Except PyError (Nat × Option Json)) :
    envelopeOk (searchEnvelope q c res) := by
  cases h : searchParse res with
  | ok p =>
    obtain ⟨docs, n⟩ := p
    simp [searchEnvelope, h, envelopeOk, successField, errorField, Json.lookup, List.lookup]
  | error e =>
    simp [searchEnvelope, h, envelopeOk, successField, errorField, Json.lookup, List.lookup]

lemma envelopeOk_search (query collection_name : String) (top_k : Int)
    (score_threshold : Rat) (env : Nat → AttemptResult) (asyncioDefined : Bool) :
    envelopeOk (search_knowledge_base query collection_name top_k score_threshold
      env asyncioDefined).envelope := by
  by_cases hq : pyStrip query = ""
  · simp [search_knowledge_base, hq, envelopeOk, successField, errorField,
      Json.lookup, List.lookup]
  · simp only [search_knowledge_base, hq, if_false]
    exact envelopeOk_searchEnvelope _ _ _

lemma envelopeOk_getDocument (document_id collection_name : String)
    (env : AttemptResult) :
    envelopeOk (get_document document_id collection_name env).envelope := by
  by_cases hd : pyStrip document_id = ""
  · simp [get_document, hd, envelopeOk, successField, errorField, Json.lookup, List.lookup]
  · cases h : getDocFetch env with
    | ok doc =>
      simp [get_document, hd, h, envelopeOk, successField, errorField,
        Json.lookup, List.lookup]
    | error e =>
      simp [get_document, hd, h, envelopeOk, successField, errorField,
        Json.lookup, List.lookup]

lemma envelopeOk_listCollections (env : AttemptResult) :
    envelopeOk (list_collections env) := by
  cases h : listFetch env with
  | ok cols =>
    simp [list_collections, h, envelopeOk, successField, errorField, Json.lookup, List.lookup]
  | error e =>
    simp [list_collections, h, envelopeOk, successField, errorField, Json.lookup, List.lookup]

/-- C1: for every input and every behavior of the remote endpoint (any
status, timeout, transport error, or malformed body), each of
`search_knowledge_base`, `get_document` and `list_collections` returns an
envelope with a boolean `success` field, and a textual `error` field
whenever `success` is false; the operations are total functions of the
endpoint behavior, so no invocation raises past its own boundary. -/
theorem claim_C1_envelope_uniform :
    ∀ (query collection_name : String) (top_k : Int) (score_threshold : Rat)
      (env : Nat → AttemptResult) (asyncioDefined : Bool)
      (document_id dcollection : String) (denv cenv : AttemptResult),
      envelopeOk (search_knowledge_base query collection_name top_k score_threshold
        env asyncioDefined).envelope ∧
      envelopeOk (get_document document_id dcollection denv).envelope ∧
      envelopeOk (list_collections cenv) :=
  fun query collection_name top_k score_threshold env asyncioDefined
      document_id dcollection denv cenv =>
    ⟨envelopeOk_search query collection_name top_k score_threshold env asyncioDefined,
     envelopeOk_getDocument document_id dcollection denv,
     envelopeOk_listCollections cenv⟩

/-- Witness for C1 at concrete inputs (a transport failure everywhere). -/
theorem claim_C1_envelope_uniform_witness :
    envelopeOk (search_knowledge_base "q" "default" 5 (7/10)
      (fun _ => .timeout) true).envelope ∧
    envelopeOk (get_document "doc1" "default" .timeout).envelope ∧
    envelopeOk (list_collections .timeout) :=
  claim_C1_envelope_uniform "q" "default" 5 (7/10) (fun _ => .timeout) true
    "doc1" "default" .timeout .timeout

/-! ## Validation short-circuits (C6) -/

/-- C6: a query that is empty or whitespace-only short-circuits
`search_knowledge_base` into the fixed validation envelope (which echoes
the original untrimmed query) with zero attempts, zero sleeps and zero
requests; an empty-or-whitespace `document_id` short-circuits
`get_document` into its fixed validation envelope with zero network
calls. -/
theorem claim_C6_validation (query document_id : String)
    (hq : pyStrip query = "") (hd : pyStrip document_id = "") :
    (∀ (collection_name : String) (top_k : Int) (score_threshold : Rat)
       (env : Nat → AttemptResult) (asyncioDefined : Bool),
       search_knowledge_base query collection_name top_k score_threshold env asyncioDefined =
         { envelope := .obj [("success", .bool false),
             ("error", .str "Query cannot be empty"), ("query", .str query)],
           attempts := 0, sleeps := [], requests := [] }) ∧
    (∀ (collection_name : String) (env : AttemptResult),
       get_document document_id collection_name env =
         { envelope := .obj [("success", .bool false),
             ("error", .str "Document ID cannot be empty")],
           networkCalls := 0 }) := by
  constructor
  · intro collection_name top_k score_threshold env asyncioDefined
    simp [search_knowledge_base, hq]
  · intro collection_name env
    simp [get_document, hd]

/-- Witness for C6 at the concrete inputs `""` and `"   "`. -/
theorem claim_C6_validation_witness :
    (search_knowledge_base "" "default" 5 (7/10) (fun _ => .timeout) true =
      { envelope := .obj [("success", .bool false),
          ("error", .str "Query cannot be empty"), ("query", .str "")],
        attempts := 0, sleeps := [], requests := [] }) ∧
    (search_knowledge_base "   " "default" 5 (7/10) (fun _ => .timeout) true =
      { envelope := .obj [("success", .bool false),
          ("error", .str "Query cannot be empty"), ("query", .str "   ")],
        attempts := 0, sleeps := [], requests := [] }) ∧
    (get_document "" "default" .timeout =
      { envelope := .obj [("success", .bool false),
          ("error", .str "Document ID cannot be empty")],
        networkCalls := 0 }) :=
  ⟨(claim_C6_validation "" "" rfl rfl).1 "default" 5 (7/10) (fun _ => .timeout) true,
   (claim_C6_validation "   " "" (by decide) rfl).1 "default" 5 (7/10) (fun _ => .timeout) true,
   (claim_C6_validation "" "" rfl rfl).2 "default" .timeout⟩

/-! ## Clamping (C7) -/

lemma runAttempts_head_pos (env : Nat → AttemptResult) (asyncioDefined : Bool)
    (total a d : Nat) (rest : List (Nat × Nat)) :
    1 ≤ (runAttempts env asyncioDefined total ((a, d) :: rest)).1 := by
  cases h : env a <;> simp [runAttempts, h] <;> split_ifs <;> omega

/-- C7: with a non-empty query, every outbound request body carries exactly
`min(max(1, top_k), 20)` and `min(max(0.0, score_threshold), 1.0)`, and at
least one request is sent — out-of-range values are coerced, never
rejected before the network call. -/
theorem claim_C7_clamping (query collection_name : String) (top_k : Int)
    (score_threshold : Rat) (env : Nat → AttemptResult) (asyncioDefined : Bool)
    (hq : pyStrip query ≠ "") :
    1 ≤ (search_knowledge_base query collection_name top_k score_threshold
        env asyncioDefined).attempts ∧
    (search_knowledge_base query collection_name top_k score_threshold
        env asyncioDefined).requests =
      List.replicate
        (search_knowledge_base query collection_name top_k score_threshold
          env asyncioDefined).attempts
        ⟨query, collection_name, min (max 1 top_k) 20, min (max 0 score_threshold) 1⟩ := by
  constructor
  · simp only [search_knowledge_base, hq, if_false, searchRun, retry_delays, List.enumFrom]
    exact runAttempts_head_pos env asyncioDefined 3 1 1 [(2, 2), (3, 4)]
  · simp [search_knowledge_base, hq]

/-- Witness for C7 at out-of-range `top_k = 999` and `score_threshold = 5`. -/
theorem claim_C7_clamping_witness :
    1 ≤ (search_knowledge_base "q" "default" 999 5
        (fun _ => .response 200 (some (.obj []))) true).attempts ∧
    (search_knowledge_base "q" "default" 999 5
        (fun _ => .response 200 (some (.obj []))) true).requests =
      List.replicate
        (search_knowledge_base "q" "default" 999 5
          (fun _ => .response 200 (some (.obj []))) true).attempts
        ⟨"q", "default", min (max 1 999) 20, min (max 0 5) 1⟩ :=
  claim_C7_clamping "q" "default" 999 5 (fun _ => .response 200 (some (.obj []))) true
    (by decide)

/-! ## Retry behavior (C2–C5) -/

/-- C2: with the asyncio global bound (the script execution mode), a
non-empty query against an endpoint answering 503, 503, then 200 with
`{"documents": [d1, d2]}` yields the success envelope with results
`[d1, d2]` and count 2, after exactly 3 attempts and backoff sleeps of 1s
then 2s. -/
theorem claim_C2_retry_then_success (query collection_name : String) (top_k : Int)
    (score_threshold : Rat) (d1 d2 : Json) (hq : pyStrip query ≠ "") :
    search_knowledge_base query collection_name top_k score_threshold
        (envTwo503Then200 d1 d2) true =
      { envelope := .obj [("success", .bool true), ("query", .str query),
          ("collection", .str collection_name), ("results", .arr [d1, d2]),
          ("count", .num 2)],
        attempts := 3, sleeps := [1, 2],
        requests := List.replicate 3
          ⟨query, collection_name, min (max 1 top_k) 20, min (max 0 score_threshold) 1⟩ } := by
  simp [search_knowledge_base, hq, searchRun, retry_delays, List.enumFrom, runAttempts,
    envTwo503Then200, searchEnvelope, searchParse, pyGet, pyLen, is2xx, retryableStatus,
    Json.lookup]

/-- Witness for C2 at concrete inputs. -/
theorem claim_C2_retry_then_success_witness :
    search_knowledge_base "q" "default" 5 (7/10)
        (envTwo503Then200 (.str "doc1") (.str "doc2")) true =
      { envelope := .obj [("success", .bool true), ("query", .str "q"),
          ("collection", .str "default"), ("results", .arr [.str "doc1", .str "doc2"]),
          ("count", .num 2)],
        attempts := 3, sleeps := [1, 2],
        requests := List.replicate 3 ⟨"q", "default", min (max 1 5) 20, min (max 0 (7/10)) 1⟩ } :=
  claim_C2_retry_then_success "q" "default" 5 (7/10) (.str "doc1") (.str "doc2") (by decide)

/-- C3: with the asyncio global bound, a non-empty query against an
endpoint answering 503 on every attempt makes exactly 3 attempts and 2
backoff sleeps, no 4th attempt, and returns the failure envelope whose
error text contains `"503"`. -/
theorem claim_C3_retries_exhausted (query collection_name : String) (top_k : Int)
    (score_threshold : Rat) (hq : pyStrip query ≠ "") :
    search_knowledge_base query collection_name top_k score_threshold envAlways503 true =
      { envelope := .obj [("success", .bool false), ("error", .str "Server error 503"),
          ("query", .str query), ("collection", .str collection_name)],
        attempts := 3, sleeps := [1, 2],
        requests := List.replicate 3
          ⟨query, collection_name, min (max 1 top_k) 20, min (max 0 score_threshold) 1⟩ } ∧
    (∃ pre post, "Server error 503" = pre ++ "503" ++ post) := by
  refine ⟨?_, "Server error ", "", rfl⟩
  simp [search_knowledge_base, hq, searchRun, retry_delays, List.enumFrom, runAttempts,
    envAlways503, searchEnvelope, searchParse, is2xx, retryableStatus, PyError.msg]
  rfl

/-- Witness for C3 at concrete inputs. -/
theorem claim_C3_retries_exhausted_witness :
    (search_knowledge_base "q" "default" 5 (7/10) envAlways503 true =
      { envelope := .obj [("success", .bool false), ("error", .str "Server error 503"),
          ("query", .str "q"), ("collection", .str "default")],
        attempts := 3, sleeps := [1, 2],
        requests := List.replicate 3 ⟨"q", "default", min (max 1 5) 20, min (max 0 (7/10)) 1⟩ }) ∧
    (∃ pre post, "Server error 503" = pre ++ "503" ++ post) :=
  claim_C3_retries_exhausted "q" "default" 5 (7/10) (by decide)

/-- C4: with the module merely imported (so the global `asyncio` is unbound,
since its `import` sits under the `__main__` guard), a non-empty query whose
first attempt fails with a retryable condition gets no second attempt and
no backoff sleep: `asyncio.sleep` raises `NameError`, the outermost handler
converts it, and the failure envelope's error text describes the
`NameError`, not the original transport failure. -/
theorem claim_C4_asyncio_name_error (query collection_name : String) (top_k : Int)
    (score_threshold : Rat) (env : Nat → AttemptResult) (hq : pyStrip query ≠ "")
    (hr : retryableFirstAttempt env) :
    search_knowledge_base query collection_name top_k score_threshold env false =
      { envelope := .obj [("success", .bool false),
          ("error", .str (PyError.msg (.nameError "asyncio"))),
          ("query", .str query), ("collection", .str collection_name)],
        attempts := 1, sleeps := [],
        requests := List.replicate 1
          ⟨query, collection_name, min (max 1 top_k) 20, min (max 0 score_threshold) 1⟩ } := by
  rcases hr with h | ⟨s, b, h, hs⟩
  · simp [search_knowledge_base, hq, searchRun, retry_delays, List.enumFrom, runAttempts,
      h, searchEnvelope, searchParse]
  · have h2 : is2xx s = false := by
      simp only [retryableStatus, decide_eq_true_eq] at hs
      simp only [is2xx, decide_eq_false_iff_not]
      omega
    simp [search_knowledge_base, hq, searchRun, retry_delays, List.enumFrom, runAttempts,
      h, h2, hs, searchEnvelope, searchParse]

/-- Witness for C4: timeout on the first attempt, module-import mode. -/
theorem claim_C4_asyncio_name_error_witness :
    search_knowledge_base "q" "default" 5 (7/10) (fun _ => .timeout) false =
      { envelope := .obj [("success", .bool false),
          ("error", .str (PyError.msg (.nameError "asyncio"))),
          ("query", .str "q"), ("collection", .str "default")],
        attempts := 1, sleeps := [],
        requests := List.replicate 1 ⟨"q", "default", min (max 1 5) 20, min (max 0 (7/10)) 1⟩ } :=
  claim_C4_asyncio_name_error "q" "default" 5 (7/10) (fun _ => .timeout) (by decide)
    (Or.inl rfl)

/-- C5: a non-empty query whose first attempt draws a 4xx status outside
{408, 429} fails immediately: exactly one attempt, no backoff sleep, and
the failure envelope carries the HTTP status error — in either module
binding mode. -/
theorem claim_C5_non_retryable_4xx (query collection_name : String) (top_k : Int)
    (score_threshold : Rat) (s : Nat) (b : Option Json) (env : Nat → AttemptResult)
    (asyncioDefined : Bool) (hq : pyStrip query ≠ "") (henv : env 1 = .response s b)
    (h400 : 400 ≤ s) (h500 : s < 500) (h408 : s ≠ 408) (h429 : s ≠ 429) :
    search_knowledge_base query collection_name top_k score_threshold env asyncioDefined =
      { envelope := .obj [("success", .bool false),
          ("error", .str (PyError.msg (.httpStatusError s))),
          ("query", .str query), ("collection", .str collection_name)],
        attempts := 1, sleeps := [],
        requests := List.replicate 1
          ⟨query, collection_name, min (max 1 top_k) 20, min (max 0 score_threshold) 1⟩ } := by
  have h2 : is2xx s = false := by
    simp only [is2xx, decide_eq_false_iff_not]
    omega
  have hrs : retryableStatus s = false := by
    simp only [retryableStatus, decide_eq_false_iff_not]
    omega
  simp [search_knowledge_base, hq, searchRun, retry_delays, List.enumFrom, runAttempts,
    henv, h2, hrs, searchEnvelope, searchParse]

/-- Witness for C5 at HTTP 404 on the first attempt. -/
theorem claim_C5_non_retryable_4xx_witness :
    search_knowledge_base "q" "default" 5 (7/10) (fun _ => .response 404 none) true =
      { envelope := .obj [("success", .bool false),
          ("error", .str (PyError.msg (.httpStatusError 404))),
          ("query", .str "q"), ("collection", .str "default")],
        attempts := 1, sleeps := [],
        requests := List.replicate 1 ⟨"q", "default", min (max 1 5) 20, min (max 0 (7/10)) 1⟩ } :=
  claim_C5_non_retryable_4xx "q" "default" 5 (7/10) 404 none (fun _ => .response 404 none)
    true (by decide) rfl (by decide) (by decide) (by decide) (by decide)

/-! ## Success-path parsing (C8, C10) and the get_document failure envelope (C9) -/

/-- Counterexample for C8: a 2xx response whose body parses as JSON — a JSON
array — does not yield a success envelope: `result_data.get` raises
`AttributeError` on the list, and the outer handler returns the failure
envelope. -/
theorem claim_C8_counterexample :
    (search_knowledge_base "q" "default" 5 (7/10)
        (fun _ => .response 200 (some (.arr []))) true).envelope =
      .obj [("success", .bool false),
        ("error", .str (PyError.msg (.attributeError "get"))),
        ("query", .str "q"), ("collection", .str "default")] := rfl

/-- C8 (amended): whenever the retry loop ends with a response whose body
parses as a JSON object, and that object's `documents` field is an array
(or absent, defaulting to the empty array), the returned envelope is
`{success: true, query, collection, results, count}` with `count` the
length of `results`. -/
theorem claim_C8_success_envelope (query collection_name : String) (top_k : Int)
    (score_threshold : Rat) (env : Nat → AttemptResult) (asyncioDefined : Bool)
    (st : Nat) (fields : List (String × Json)) (ds : List Json)
    (hq : pyStrip query ≠ "")
    (hrun : (searchRun env asyncioDefined).2.2 = .ok (st, some (.obj fields)))
    (hd : fields.lookup "documents" = some (.arr ds) ∨
          (fields.lookup "documents" = none ∧ ds = [])) :
    (search_knowledge_base query collection_name top_k score_threshold
        env asyncioDefined).envelope =
      .obj [("success", .bool true), ("query", .str query),
        ("collection", .str collection_name), ("results", .arr ds),
        ("count", .num ds.length)] := by
  rcases hd with hd | ⟨hd, rfl⟩ <;>
    simp [search_knowledge_base, hq, searchEnvelope, searchParse, hrun, pyGet, pyLen, hd]

/-- Witness for the amended C8 at a concrete 200 response with body
`{"documents": ["doc1"]}`. -/
theorem claim_C8_success_envelope_witness :
    (search_knowledge_base "q" "default" 5 (7/10)
        (fun _ => .response 200 (some (.obj [("documents", .arr [.str "doc1"])]))) true).envelope =
      .obj [("success", .bool true), ("query", .str "q"),
        ("collection", .str "default"), ("results", .arr [.str "doc1"]),
        ("count", .num 1)] :=
  claim_C8_success_envelope "q" "default" 5 (7/10)
    (fun _ => .response 200 (some (.obj [("documents", .arr [.str "doc1"])]))) true
    200 [("documents", .arr [.str "doc1"])] [.str "doc1"]
    (by decide) rfl (Or.inl rfl)

/-- Counterexample for C9: on a failing GET, `get_document`'s failure
envelope contains no `collection_name` field — the code builds it from
`success`, `error` and `document_id` only. -/
theorem claim_C9_counterexample :
    (get_document "doc1" "default" (.response 404 none)).envelope.lookup "collection_name" =
        none ∧
      (get_document "doc1" "default" (.response 404 none)).envelope =
        .obj [("success", .bool false),
          ("error", .str (PyError.msg (.httpStatusError 404))),
          ("document_id", .str "doc1")] :=
  ⟨rfl, rfl⟩

/-- C9 (amended): for every non-empty `document_id`, when the single GET
fails, the returned envelope has `success: false`, a textual `error` and
the `document_id` — but no `collection_name` field — after exactly one
network call. -/
theorem claim_C9_failure_envelope (document_id collection_name : String)
    (env : AttemptResult) (hd : pyStrip document_id ≠ "") (hf : getFails env) :
    successField (get_document document_id collection_name env).envelope = some false ∧
    (errorField (get_document document_id collection_name env).envelope).isSome ∧
    (get_document document_id collection_name env).envelope.lookup "document_id" =
      some (.str document_id) ∧
    (get_document document_id collection_name env).envelope.lookup "collection_name" =
      none ∧
    (get_document document_id collection_name env).networkCalls = 1 := by
  rcases hf with h | ⟨m, h⟩ | ⟨s, b, h, hs⟩
  · subst h
    simp [get_document, hd, getDocFetch, successField, errorField, Json.lookup, List.lookup]
  · subst h
    simp [get_document, hd, getDocFetch, successField, errorField, Json.lookup, List.lookup]
  · subst h
    simp [get_document, hd, getDocFetch, successField, errorField, Json.lookup,
      List.lookup, hs]

/-- Witness for the amended C9 at a timeout on the single GET. -/
theorem claim_C9_failure_envelope_witness :
    successField (get_document "doc1" "default" .timeout).envelope = some false ∧
    (errorField (get_document "doc1" "default" .timeout).envelope).isSome ∧
    (get_document "doc1" "default" .timeout).envelope.lookup "document_id" =
      some (.str "doc1") ∧
    (get_document "doc1" "default" .timeout).envelope.lookup "collection_name" = none ∧
    (get_document "doc1" "default" .timeout).networkCalls = 1 :=
  claim_C9_failure_envelope "doc1" "default" .timeout (by decide) (Or.inl rfl)

/-- Counterexample for C10: a 2xx response whose body parses as JSON — a
JSON array — makes `list_collections` return a failure envelope:
`collections_data.get` raises `AttributeError` on the list. -/
theorem claim_C10_counterexample :
    list_collections (.response 200 (some (.arr []))) =
      .obj [("success", .bool false),
        ("error", .str (PyError.msg (.attributeError "get")))] := rfl

/-- C10 (amended): for every 2xx response whose body parses as a JSON
object whose `collections` field is an array (or absent, defaulting to the
empty array), `list_collections` returns `{success: true, collections}`. -/
theorem claim_C10_success_envelope (s : Nat) (fields : List (String × Json))
    (cs : List Json) (h2 : is2xx s = true)
    (hc : fields.lookup "collections" = some (.arr cs) ∨
          (fields.lookup "collections" = none ∧ cs = [])) :
    list_collections (.response s (some (.obj fields))) =
      .obj [("success", .bool true), ("collections", .arr cs)] := by
  rcases hc with hc | ⟨hc, rfl⟩ <;>
    simp [list_collections, listFetch, h2, pyGet, pyLen, hc]

/-- Witness for the amended C10 at the concrete body `{"collections": []}`. -/
theorem claim_C10_success_envelope_witness :
    list_collections (.response 200 (some (.obj [("collections", .arr [])]))) =
      .obj [("success", .bool true), ("collections", .arr [])] :=
  claim_C10_success_envelope 200 [("collections", .arr [])] [] (by decide) (Or.inl rfl)
